import Mathlib

/-!
Verification development for the disk-to-controller tree scripts
(`linux/disktools/disk_controller_tree.py`, referred to as V1, and
`linux/disktools/v2_disk_controller_tree.py`, referred to as V2).

The Python string operations are embedded as structurally recursive
functions over `List Char` (converted at the edges with `String.toList`
and `String.mk`), so that every definition evaluates by kernel reduction.
`str.splitlines()` is modelled as splitting on `'\n'` with Python's
trailing-line convention; `str.strip()` trims the four common whitespace
characters recognised by `Char.isWhitespace`.
-/

namespace DiskTree

/-- Whitespace test used for Python `str.strip` / `str.split()` / regex `\s`. -/
def isWsC (c : Char) : Bool := c.isWhitespace

/-- ASCII decimal digit, by code point (Python `str.isdigit` on ASCII input). -/
def isDigitC (c : Char) : Bool := 48 ≤ c.toNat && c.toNat ≤ 57

/-- Lowercase hexadecimal digit `[0-9a-f]`, by code point. -/
def isHexL (c : Char) : Bool :=
  (48 ≤ c.toNat && c.toNat ≤ 57) || (97 ≤ c.toNat && c.toNat ≤ 102)

/-- Value of a hex digit (guarded by `isHexL` at all call sites). -/
def hexVal (c : Char) : Nat := if c.toNat ≤ 57 then c.toNat - 48 else c.toNat - 87

/-- Value of a decimal digit (guarded by `isDigitC` at all call sites). -/
def digitVal (c : Char) : Nat := c.toNat - 48

/-- Trim whitespace from both ends of a char list (Python `str.strip`). -/
def trimL (cs : List Char) : List Char :=
  ((cs.dropWhile isWsC).reverse.dropWhile isWsC).reverse

/-- Python `str.strip()`. -/
def pyStrip (s : String) : String := String.mk (trimL s.toList)

/-- Python `str.lower()` (ASCII case mapping). -/
def pyLower (s : String) : String := String.mk (s.toList.map Char.toLower)

/-- Python `str.upper()` (ASCII case mapping). -/
def pyUpper (s : String) : String := String.mk (s.toList.map Char.toUpper)

/-- Substring containment on char lists (Python `needle in hay`). -/
def containsC (nd : List Char) : List Char → Bool
  | [] => nd.isPrefixOf []
  | c :: rest => nd.isPrefixOf (c :: rest) || containsC nd rest

/-- Python `needle in hay` on strings. -/
def containsSub (nd hay : String) : Bool := containsC nd.toList hay.toList

/-- Python `s.startswith(pre)`. -/
def startsWithS (pre s : String) : Bool := pre.toList.isPrefixOf s.toList

/-- Split a char list at newline characters, keeping empty pieces. -/
def splitOnNl : List Char → List (List Char)
  | [] => [[]]
  | c :: cs =>
    match splitOnNl cs with
    | [] => [[]]
    | r :: rs => if c = '\n' then [] :: r :: rs else (c :: r) :: rs

/-- Python `str.splitlines()` (modelled for `'\n'`-separated text): a trailing
newline does not produce a final empty line, and `""` has no lines. -/
def pySplitlines (s : String) : List String :=
  let ps := splitOnNl s.toList
  (if ps.getLast? = some [] then ps.dropLast else ps).map String.mk

/-- Word accumulator for `pySplit`. -/
def splitWsGo : List Char → List Char → List (List Char)
  | [], [] => []
  | [], w => [w.reverse]
  | c :: cs, w =>
    if isWsC c then
      if w = [] then splitWsGo cs [] else w.reverse :: splitWsGo cs []
    else splitWsGo cs (c :: w)

/-- Python `str.split()` with no separator: split on whitespace runs, no empties. -/
def pySplit (s : String) : List String := (splitWsGo s.toList []).map String.mk

/-- Split at the first colon, if any (Python `s.split(":", 1)`). -/
def splitColon1 (cs : List Char) : List Char × Option (List Char) :=
  match cs with
  | [] => ([], none)
  | c :: rest =>
    if c = ':' then ([], some rest)
    else
      match splitColon1 rest with
      | (hd, tl) => (c :: hd, tl)

/-- Python `s.split(":", 1)[-1]`: text after the first colon, or the whole
string when it has no colon. -/
def lastColon1 (s : String) : String :=
  match splitColon1 s.toList with
  | (_, some tail) => String.mk tail
  | (whole, none) => String.mk whole

/-- Python `s.split(":", 2)[-1]`: text after the second colon, the text after
the first when there is exactly one, or the whole string with none. -/
def lastColon2 (s : String) : String :=
  match splitColon1 s.toList with
  | (_, some tail) =>
    match splitColon1 tail with
    | (_, some tail2) => String.mk tail2
    | (whole, none) => String.mk whole
  | (whole, none) => String.mk whole

/-- Python `int(s)` for a string of decimal digits. -/
def natOfDigits (cs : List Char) : Nat := cs.foldl (fun acc c => 10 * acc + digitVal c) 0

/-- Python `s.isdigit()` (ASCII). -/
def isDigitStr (s : String) : Bool := !s.toList.isEmpty && s.toList.all isDigitC

/-- `int(s)` guarded by `s.isdigit()`: the numeric value of an all-digit string. -/
def parseDigitsS (s : String) : Option Nat :=
  if isDigitStr s then some (natOfDigits s.toList) else none

-- ── ANSI color constants (from the scripts' header blocks) ──

def RED : String := "\x1b[0;31m"
def BOLD_RED : String := "\x1b[1;31m"
def GREEN : String := "\x1b[0;32m"
def BOLD_GREEN : String := "\x1b[1;32m"
def YELLOW : String := "\x1b[1;33m"
def NC : String := "\x1b[0m"

-- ── Tri-state health classification (shared by both variants) ──

/-- Tri-state health status: the ✅ / ⚠️ / ❓ markers of `format_smart_health`. -/
inductive Health where
  | healthy
  | degraded
  | unknown
deriving DecidableEq, Repr

/-- Rendering of the tri-state status, exactly the strings returned by
`format_smart_health` in both scripts. -/
def healthRender : Health → String
  | .healthy => "❤️ SMART: ✅ ,"
  | .unknown => "❤️ SMART: ❓ ,"
  | .degraded => RED ++ "❤️ SMART: ⚠️ ," ++ NC

-- ── PCI bus addresses: findall, parsing, sort keys ──

/-- Fuel-driven scanner for `scanAddrs`; the fuel starts at the list length
and always dominates it, so it never runs out before the text does. -/
def scanAddrsGo : Nat → List Char → List (List Char)
  | 0, _ => []
  | _ + 1, [] => []
  | fuel + 1, c0 :: tail =>
    match tail with
    | c1 :: ':' :: c3 :: c4 :: '.' :: c6 :: rest =>
      if isHexL c0 && isHexL c1 && isHexL c3 && isHexL c4 && isDigitC c6 then
        [c0, c1, ':', c3, c4, '.', c6] :: scanAddrsGo fuel rest
      else scanAddrsGo fuel tail
    | _ => scanAddrsGo fuel tail

/-- `re.findall(r'([0-9a-f]{2}:[0-9a-f]{2}\.[0-9])', path)`: non-overlapping
left-to-right scan; after a hit the scan resumes past the matched text. -/
def scanAddrs (cs : List Char) : List (List Char) := scanAddrsGo cs.length cs

/-- `re.match(r'([0-9a-f]{2}):([0-9a-f]{2})\.([0-9])', s)` with the three
groups read as hexadecimal numbers (`pci_sort_key`'s match branch). A match
is anchored at the start and may be followed by further characters. -/
def pciParse (s : String) : Option (Nat × Nat × Nat) :=
  match s.toList with
  | c0 :: c1 :: ':' :: c3 :: c4 :: '.' :: c6 :: _ =>
    if isHexL c0 && isHexL c1 && isHexL c3 && isHexL c4 && isDigitC c6 then
      some (16 * hexVal c0 + hexVal c1, 16 * hexVal c3 + hexVal c4, digitVal c6)
    else none
  | _ => none

/-- V2 `pci_sort_key`: the parsed `(bus, device, function)` triple, or the
out-of-band `(999, 999, 999)` when the string does not parse. -/
def pci_sort_key (s : String) : Nat × Nat × Nat := (pciParse s).getD (999, 999, 999)

/-- `k.split()[0]` as used by V2's `print_output` (empty-safe). -/
def firstWord (k : String) : String := (pySplit k).headD ""

/-- Strict lexicographic comparison of `(bus, device, function)` triples,
Python tuple `<`. -/
def tripleLtB (a b : Nat × Nat × Nat) : Bool :=
  decide (a.1 < b.1) ||
    (decide (a.1 = b.1) &&
      (decide (a.2.1 < b.2.1) || (decide (a.2.1 = b.2.1) && decide (a.2.2 < b.2.2))))

/-- Non-strict tuple comparison backing the stable sort. -/
def tripleLeB (a b : Nat × Nat × Nat) : Bool := !tripleLtB b a

/-- Lexicographic comparison of strings by code point (Python string `<=`). -/
def charsLe : List Char → List Char → Bool
  | [], _ => true
  | _ :: _, [] => false
  | a :: as, b :: bs => if a.toNat < b.toNat then true else if a = b then charsLe as bs else false

/-- Python string `<=` by code points. -/
def strLeB (a b : String) : Bool := charsLe a.toList b.toList

-- ── Stable sorting (Python `sorted`) ──

/-- Insert `a` before the first element `b` with `le a b`; with a total
preorder `le` this realises Python's stable sort. -/
def insertLe (le : α → α → Bool) (a : α) : List α → List α
  | [] => [a]
  | b :: bs => if le a b then a :: b :: bs else b :: insertLe le a bs

/-- Stable insertion sort: `sorted(l, key=...)` for the preorder `le`. -/
def sortLe (le : α → α → Bool) : List α → List α
  | [] => []
  | a :: as => insertLe le a (sortLe le as)

/-- V2 sort key comparison for controller keys:
`sorted(keys, key=lambda k: pci_sort_key(k.split()[0]))`. -/
def v2key (k : String) : Nat × Nat × Nat := pci_sort_key (firstWord k)

/-- Non-strict comparison of controller keys through `pci_sort_key`. -/
def v2le (k1 k2 : String) : Bool := tripleLeB (v2key k1) (v2key k2)

/-- V2 `print_output` key ordering. -/
def v2sortKeys (ks : List String) : List String := sortLe v2le ks

/-- V1 `print_output` key ordering: plain `sorted(keys)` on the raw strings. -/
def v1sortKeys (ks : List String) : List String := sortLe strLeB ks

/-- Does a controller key's leading token parse as a PCI bus address? -/
def validKeyB (k : String) : Bool := (pciParse (firstWord k)).isSome

-- ── Controller resolution (both variants, `get_storage_controller`) ──

/-- `re.search(r'sata|raid|sas|storage controller|non-volatile', line, re.IGNORECASE)`. -/
def keywordHit (line : String) : Bool :=
  containsSub "sata" (pyLower line) || containsSub "raid" (pyLower line) ||
    containsSub "sas" (pyLower line) || containsSub "storage controller" (pyLower line) ||
    containsSub "non-volatile" (pyLower line)

/-- Loop body of `get_storage_controller`: first address whose `lspci` line
matches a controller-class keyword wins; its tail after the second colon is
the reported description. -/
def resolveLoop (lspci : String → String) : List String → String
  | [] => "Unknown Controller"
  | a :: rest =>
    if keywordHit (pyStrip (lspci a)) then
      a ++ " " ++ pyStrip (lastColon2 (pyStrip (lspci a)))
    else resolveLoop lspci rest

/-- `get_storage_controller` over the canonical (symlink-resolved) device
path, with the system's `lspci -s` lookup supplied as an oracle. Both
variants share this logic. -/
def get_storage_controller (lspci : String → String) (realPath : String) : String :=
  resolveLoop lspci (((scanAddrs realPath.toList).map String.mk).reverse)

-- ── Controller → device-list aggregation (`defaultdict(list)`) ──

/-- The report structure: controller keys with their device lines, in key
first-touch order. -/
abbrev Groups := List (String × List String)

/-- `CONTROLLER_DISKS[key].append(entry)` on a `defaultdict(list)`. -/
def addDisk : Groups → String → String → Groups
  | [], k, e => [(k, [e])]
  | (k', es) :: rest, k, e =>
    if k' = k then (k', es ++ [e]) :: rest else (k', es) :: addDisk rest k e

/-- The device list recorded under a controller key (empty when absent). -/
def lookupG : Groups → String → List String
  | [], _ => []
  | (k', es) :: rest, k => if k' = k then es else lookupG rest k

-- ── Regex scanners shared by the SMART-info parsing ──

/-- At one position: greedy `[0-9.]+` immediately followed by `" Gb/s"`,
capturing the whole `([0-9.]+ Gb/s)` group. -/
def gbpsAt (cs : List Char) : Option (List Char) :=
  let run := cs.takeWhile (fun ch => isDigitC ch || ch = '.')
  if !run.isEmpty && " Gb/s".toList.isPrefixOf (cs.drop run.length) then
    some (run ++ " Gb/s".toList)
  else none

/-- `re.search(r'([\d.]+ Gb/s)', s)`: leftmost occurrence. -/
def searchGbps : List Char → Option (List Char)
  | [] => none
  | c :: rest =>
    match gbpsAt (c :: rest) with
    | some g => some g
    | none => searchGbps rest

/-- After a `"current:"` key: `\s*` then the `([0-9.]+ Gb/s)` group. -/
def currentTail (cs : List Char) : Option (List Char) := gbpsAt (cs.dropWhile isWsC)

/-- `re.search(r'current:\s*([0-9.]+ Gb/s)', s)`: leftmost start position whose
key and tail both match. -/
def findCurrentGbps : List Char → Option (List Char)
  | [] => none
  | c :: rest =>
    if "current:".toList.isPrefixOf (c :: rest) then
      match currentTail ((c :: rest).drop 8) with
      | some g => some g
      | none => findCurrentGbps rest
    else findCurrentGbps rest

/-- Scan for the first comma on the current line (the lazy `.*?,` cannot cross
a newline) whose tail matches `\s*([0-9.]+ Gb/s)`. -/
def commaScan : List Char → Option (List Char)
  | [] => none
  | c :: rest =>
    if c = '\n' then none
    else if c = ',' then
      match currentTail rest with
      | some g => some g
      | none => commaScan rest
    else commaScan rest

/-- `re.search(r'SATA Version is:\s*.*?,\s*([0-9.]+ Gb/s)', s)`: after the key,
leading whitespace (which may span lines) is skipped, then the first comma on
that line with a matching speed tail yields the capture. -/
def findSataCap : List Char → Option (List Char)
  | [] => none
  | c :: rest =>
    if "SATA Version is:".toList.isPrefixOf (c :: rest) then
      match commaScan (((c :: rest).drop 16).dropWhile isWsC) with
      | some g => some g
      | none => findSataCap rest
    else findSataCap rest

/-- `re.search(r'SATA Version is:\s*([0-9.]+)', s)`: the version number right
after the key (used by V2's `get_sata_speed_label`). -/
def findSataVersionNum : List Char → Option (List Char)
  | [] => none
  | c :: rest =>
    if "SATA Version is:".toList.isPrefixOf (c :: rest) then
      let run := (((c :: rest).drop 16).dropWhile isWsC).takeWhile
        (fun ch => isDigitC ch || ch = '.')
      if run.isEmpty then findSataVersionNum rest else some run
    else findSataVersionNum rest

/-- `re.search(r'(\d+)', s)`: first digit run. -/
def firstDigitRun : List Char → Option (List Char)
  | [] => none
  | c :: rest =>
    if isDigitC c then some (c :: rest.takeWhile isDigitC) else firstDigitRun rest

/-- `re.search(r'critical_warning\s*:\s*(\d+)', s)` (V1's NVMe health probe). -/
def findCritWarn : List Char → Option (List Char)
  | [] => none
  | c :: rest =>
    if "critical_warning".toList.isPrefixOf (c :: rest) then
      match ((c :: rest).drop 16).dropWhile isWsC with
      | ':' :: cs2 =>
        let ds := (cs2.dropWhile isWsC).takeWhile isDigitC
        if ds.isEmpty then findCritWarn rest else some ds
      | _ => findCritWarn rest
    else findCritWarn rest

namespace V2

/-- V2 `format_smart_health`'s branch structure as a classifier: the uppercased
status against the known markers, then the empty-signal test, else failure. -/
def healthClass (status : String) : Health :=
  if pyUpper status = "PASSED" ∨ pyUpper status = "OK" ∨ pyUpper status = "0" then .healthy
  else if status = "" then .unknown
  else .degraded

/-- V2 `format_smart_health` (the classifier composed with its rendering). -/
def format_smart_health (status : String) : String := healthRender (healthClass status)

/-- V2 `parse_smart_health`: value of the first line mentioning `smart` and
`result`/`assessment` (text after the first colon, or the whole line), else `""`. -/
def parse_smart_health (output : String) : String :=
  ((pySplitlines output).findSome? fun line =>
    if containsSub "smart" (pyLower line) &&
        (containsSub "result" (pyLower line) || containsSub "assessment" (pyLower line)) then
      some (pyStrip (lastColon1 line))
    else none).getD ""

/-- V2 `parse_smartctl_output`: stripped text after the colon of the first
line containing the key (case-insensitive); lines without a colon are passed
over; `"unknown"` when nothing matches. -/
def parse_smartctl_output (output key : String) : String :=
  ((pySplitlines output).findSome? fun line =>
    if containsSub (pyLower key) (pyLower line) then
      match splitColon1 line.toList with
      | (_, some tail) => some (pyStrip (String.mk tail))
      | (_, none) => none
    else none).getD "unknown"

/-- V2 `process_nvme_disks`' nested `grep_val`: first line of the id-ctrl
output starting (after strip/lower) with the field name; `"??"` otherwise. -/
def grep_val (idctrl field : String) : String :=
  ((pySplitlines idctrl).findSome? fun line =>
    if startsWithS (pyLower field) (pyLower (pyStrip line)) then
      some (pyStrip (lastColon1 line))
    else none).getD "??"

/-- V2 `get_drive_temperature`, `dtype == "sata"` branch: field 9 of the first
`temp` line with at least 10 whitespace-separated fields, if all digits.
There is no numeric range check in this variant. -/
def tempSata (output : String) : Option String :=
  (pySplitlines output).findSome? fun line =>
    if containsSub "temp" (pyLower line) && decide ((pySplit line).length ≥ 10) then
      match (pySplit line).get? 9 with
      | some t => if isDigitStr t then some t else none
      | none => none
    else none

/-- V2 `get_drive_temperature` display for the SATA branch. -/
def get_drive_temperature_sata (output : String) : String :=
  match tempSata output with
  | some t => "🌡️ " ++ t ++ "°C,"
  | none => "🌡️ N/A,"

/-- V2 `get_drive_temperature`, `dtype == "nvme"` branch: first digit run of
the first line starting with `temperature`. No range check either. -/
def tempNvme (output : String) : Option String :=
  (pySplitlines output).findSome? fun line =>
    if startsWithS "temperature" (pyLower (pyStrip line)) then
      (firstDigitRun line.toList).map String.mk
    else none

/-- V2 `get_drive_temperature` display for the NVMe branch. -/
def get_drive_temperature_nvme (output : String) : String :=
  match tempNvme output with
  | some t => "🌡️ " ++ t ++ "°C,"
  | none => "🌡️ N/A,"

/-- V2 `get_sata_speed_label`: classify the version number after
`SATA Version is:` by its leading digits. -/
def get_sata_speed_label (info : String) : String :=
  match findSataVersionNum info.toList with
  | some run =>
    let speed := String.mk run
    if startsWithS "6" speed then "SATA6"
    else if startsWithS "3" speed then "SATA3"
    else if startsWithS "1.5" speed then "SATA1"
    else "SATA" ++ String.mk (run.filter (fun ch => ch ≠ '.'))
  | none => "SATA"

/-- V2's SATA link-speed loop: the LAST `([\d.]+ Gb/s)` found on a line
containing `current` (case-insensitive) and `Gb/s`; `""` when none. -/
def sataLinkspeed (info : String) : String :=
  (pySplitlines info).foldl
    (fun acc line =>
      if containsSub "current" (pyLower line) && containsSub "Gb/s" line then
        match searchGbps line.toList with
        | some g => String.mk g
        | none => acc
      else acc)
    ""

/-- V2 `color_link_speed`: PCIe/SATA raw speed strings; `re.match` of
`(12|16|32|8)\.0` is a prefix test. -/
def color_link_speed (link : String) : String :=
  if startsWithS "12.0" link || startsWithS "16.0" link ||
      startsWithS "32.0" link || startsWithS "8.0" link then
    BOLD_GREEN ++ "🧩 link=" ++ link ++ NC
  else if containsSub "6.0" link then GREEN ++ "🧩 link=" ++ link ++ NC
  else if containsSub "3.0" link then YELLOW ++ "🧩 link=" ++ link ++ NC
  else "🧩 link=" ++ link

-- ── V2 per-device raw inputs (what the acquisition layer hands over) ──

/-- Raw inputs for one `/dev/sd*` device in V2 `process_sata_disks`: the
device name, canonical sysfs path, and each external command's output. -/
structure SataRaw where
  dev : String
  devpathReal : String
  modelRaw : String
  vendorRaw : String
  sizeRaw : String
  smartInfoRaw : String
  smartHealthRaw : String
  smartAttrsRaw : String

/-- Raw inputs for one `/dev/nvme*n1` device in V2 `process_nvme_disks`;
`linkFiles` is `none` when reading the sysfs width/speed files raised. -/
structure NvmeRaw where
  entry : String
  devpathReal : String
  idctrl : String
  sizeRaw : String
  smartLogRaw : String
  linkFiles : Option (String × String)

/-- Controller key resolved for a SATA device. -/
def sataController (lspci : String → String) (d : SataRaw) : String :=
  get_storage_controller lspci d.devpathReal

/-- The report line V2 `process_sata_disks` appends for one device. -/
def sataEntry (d : SataRaw) : String :=
  let device := "/dev/" ++ d.dev
  let model := pyStrip d.modelRaw
  let vendor := pyStrip d.vendorRaw
  let size := pyStrip d.sizeRaw
  let serial := parse_smartctl_output d.smartInfoRaw "Serial Number"
  let firmware := parse_smartctl_output d.smartInfoRaw "Firmware Version"
  let smart_health := format_smart_health (parse_smart_health d.smartHealthRaw)
  let temperature := get_drive_temperature_sata d.smartAttrsRaw
  let protocol := get_sata_speed_label d.smartInfoRaw
  let linkspeed := sataLinkspeed d.smartInfoRaw
  let link_display := color_link_speed (if linkspeed = "" then "unknown" else linkspeed)
  GREEN ++ "💾 " ++ device ++ NC ++ "  (" ++ vendor ++ " " ++ model ++ ", " ++ size ++
    ", " ++ protocol ++ ", " ++ link_display ++ ", " ++ smart_health ++ " " ++
    temperature ++ " 🔢 SN: " ++ serial ++ ", 🔧 FW: " ++ firmware ++ ")"

/-- Controller key resolved for an NVMe device. -/
def nvmeController (lspci : String → String) (d : NvmeRaw) : String :=
  get_storage_controller lspci d.devpathReal

/-- The report line V2 `process_nvme_disks` appends for one device (only
reached when the id-ctrl read succeeded). -/
def nvmeEntry (d : NvmeRaw) : String :=
  let nvdev := "/dev/" ++ d.entry
  let model := grep_val d.idctrl "MN"
  let vendorid := grep_val d.idctrl "VID"
  let serial := grep_val d.idctrl "SN"
  let firmware := grep_val d.idctrl "FR"
  let size := d.sizeRaw
  let smart_health := format_smart_health (grep_val d.idctrl "critical_warning")
  let temperature := get_drive_temperature_nvme d.smartLogRaw
  let widthSpeed := match d.linkFiles with
    | some (w, s) => (pyStrip w, pyStrip s)
    | none => ("unknown", "unknown")
  let link := "PCIe " ++ widthSpeed.2 ++ " PCIe x" ++ widthSpeed.1
  let link_display := color_link_speed link
  GREEN ++ "💾 " ++ nvdev ++ NC ++ "  (0x" ++ vendorid ++ " " ++ model ++ ", " ++ size ++
    ", NVMe, " ++ link_display ++ ", " ++ smart_health ++ " " ++ temperature ++
    " 🔢 SN: " ++ serial ++ ", 🔧 FW: " ++ firmware ++ ")"

/-- One iteration of V2 `process_sata_disks`' loop body. -/
def processSataDisk (lspci : String → String) (g : Groups) (d : SataRaw) : Groups :=
  addDisk g (sataController lspci d) (sataEntry d)

/-- V2 `process_sata_disks` over the discovered `/dev/sd*` devices. -/
def process_sata_disks (lspci : String → String) (g : Groups) (ds : List SataRaw) : Groups :=
  ds.foldl (processSataDisk lspci) g

/-- One iteration of V2 `process_nvme_disks`' loop body: an empty id-ctrl
output is logged and skipped (`continue`). -/
def processNvmeDisk (lspci : String → String) (g : Groups) (d : NvmeRaw) : Groups :=
  if d.idctrl = "" then g else addDisk g (nvmeController lspci d) (nvmeEntry d)

/-- V2 `process_nvme_disks` over the discovered `/dev/nvme*n1` devices. -/
def process_nvme_disks (lspci : String → String) (g : Groups) (ds : List NvmeRaw) : Groups :=
  ds.foldl (processNvmeDisk lspci) g

/-- V2 `__main__`: the SATA scan runs to completion, then the NVMe scan,
both appending into the shared `CONTROLLER_DISKS` map (initially empty). -/
def scanAll (lspci : String → String) (sds : List SataRaw) (nds : List NvmeRaw) : Groups :=
  process_nvme_disks lspci (process_sata_disks lspci [] sds) nds

end V2

namespace V1

/-- V1 `format_smart_health`'s branch structure as a classifier: V1 compares
the status against the markers without uppercasing. -/
def healthClass (status : String) : Health :=
  if status = "PASSED" ∨ status = "OK" ∨ status = "0" then .healthy
  else if status = "" then .unknown
  else .degraded

/-- V1 `format_smart_health`. -/
def format_smart_health (status : String) : String := healthRender (healthClass status)

/-- V1 `process_sata_disks`' health probe:
`re.search(r"(PASSED|OK|FAILED)", line, re.IGNORECASE)`, leftmost occurrence
with the alternation tried in order, uppercased; `""` when absent. -/
def findHealthMarker : List Char → Option String
  | [] => none
  | c :: rest =>
    if "passed".toList.isPrefixOf ((c :: rest).map Char.toLower) then some "PASSED"
    else if "ok".toList.isPrefixOf ((c :: rest).map Char.toLower) then some "OK"
    else if "failed".toList.isPrefixOf ((c :: rest).map Char.toLower) then some "FAILED"
    else findHealthMarker rest

/-- V1 SATA health classification from the raw `smartctl -H` output. -/
def sataHealth (smartStatusLine : String) : Health :=
  healthClass ((findHealthMarker smartStatusLine.toList).getD "")

/-- V1 `process_nvme_disks`' health: `"OK"` only when a `critical_warning`
counter is present and equals 0; otherwise the substituted `"FAILED"`. -/
def nvmeHealth (smartLog : String) : Health :=
  healthClass
    (match findCritWarn smartLog.toList with
     | some ds => if ds = ['0'] then "OK" else "FAILED"
     | none => "FAILED")

/-- V1 `get_drive_temperature`'s per-line candidate: fields scanned from the
right, keeping the first all-digit value within the open interval (0, 150). -/
def tempCand (fields : List String) : Option String :=
  fields.reverse.findSome? fun v =>
    match parseDigitsS v with
    | some n => if 0 < n ∧ n < 150 then some v else none
    | none => none

/-- V1 `get_drive_temperature`'s accepted raw value: first line matching
`[Tt]emperature` that yields an in-range candidate. -/
def tempVal (output : String) : Option String :=
  (pySplitlines output).findSome? fun line =>
    if containsSub "Temperature" line || containsSub "temperature" line then
      tempCand (pySplit line)
    else none

/-- V1 `get_drive_temperature` display. -/
def get_drive_temperature (output : String) : String :=
  match tempVal output with
  | some v => "🌡️ " ++ v ++ "°C,"
  | none => "🌡️ N/A,"

/-- V1's tier table `{"SATA?": 0, "SATA1": 1, "SATA3": 3, "SATA6": 6}` with
`.get(x, 0)` defaulting. -/
def speed_order (s : String) : Nat :=
  if s = "SATA?" then 0
  else if s = "SATA1" then 1
  else if s = "SATA3" then 3
  else if s = "SATA6" then 6
  else 0

/-- V1 `color_link_speed`'s degradation test: `if max_val and link_val < max_val`. -/
def linkDegraded (link : String) (max_iface : Option String) : Bool :=
  let link_val := speed_order link
  let max_val := match max_iface with
    | some m => speed_order m
    | none => 0
  decide (max_val ≠ 0) && decide (link_val < max_val)

/-- V1 `color_link_speed`. -/
def color_link_speed (link : String) (max_iface : Option String) : String :=
  if linkDegraded link max_iface then BOLD_RED ++ "🧩 link=" ++ link ++ NC
  else if containsSub "SATA6" link then GREEN ++ "🧩 link=" ++ link ++ NC
  else if containsSub "SATA3" link then YELLOW ++ "🧩 link=" ++ link ++ NC
  else "🧩 link=" ++ link

/-- V1 `get_sata_version_and_link`: capable tier from the speed after
`SATA Version is: ...,`; negotiated tier from `current: ... Gb/s`, defaulting
to the capable speed; both classified by `6.0`/`3.0` substring. -/
def get_sata_version_and_link (info : String) : String × String :=
  let max_speed := ((findSataCap info.toList).map String.mk).getD "unknown"
  let link_speed := ((findCurrentGbps info.toList).map String.mk).getD max_speed
  let iface :=
    if containsSub "6.0" max_speed then "SATA6"
    else if containsSub "3.0" max_speed then "SATA3"
    else "SATA?"
  let link :=
    if containsSub "6.0" link_speed then "SATA6"
    else if containsSub "3.0" link_speed then "SATA3"
    else "SATA?"
  (iface, link)

end V1

/-- Modelled from the spec: the byte-formatter's unit index — "dividing by
1024 repeatedly until the value is below 1024 or the unit table
(bytes/KiB/MiB/GiB/TiB) is exhausted". No byte-count formatter exists in the
sources under src/; this and `format_bytes` follow §4.3 of the spec. -/
def byteUnitIdx (n : Nat) : Nat :=
  if n < 1024 then 0
  else if n < 1024 * 1024 then 1
  else if n < 1024 * 1024 * 1024 then 2
  else if n < 1024 * 1024 * 1024 * 1024 then 3
  else 4

/-- Modelled from the spec: the byte-count formatter (absent from src/):
binary-prefixed units B/K/M/G/T with one decimal place (plain bytes keep no
decimal, as in the spec's example `512B`), rounding to the nearest tenth. -/
def format_bytes (n : Nat) : String :=
  let k := byteUnitIdx n
  if k = 0 then toString n ++ "B"
  else
    let unit := if k = 1 then "K" else if k = 2 then "M" else if k = 3 then "G" else "T"
    let p := 1024 ^ k
    let tenths := (10 * n + p / 2) / p
    toString (tenths / 10) ++ "." ++ toString (tenths % 10) ++ unit

-- ── Helper lemmas ──

theorem findSome?_eq_none_of_all {α β : Type} {f : α → Option β} :
    ∀ {l : List α}, (∀ a ∈ l, f a = none) → l.findSome? f = none := by
  intro l
  induction l with
  | nil => intro _; rfl
  | cons a l ih =>
    intro h
    simp only [List.findSome?_cons, h a (List.mem_cons_self a l)]
    exact ih fun x hx => h x (List.mem_cons_of_mem a hx)

theorem exists_of_findSome?_eq_some {α β : Type} {f : α → Option β} {b : β} :
    ∀ {l : List α}, l.findSome? f = some b → ∃ a ∈ l, f a = some b := by
  intro l
  induction l with
  | nil => intro h; simp [List.findSome?] at h
  | cons a l ih =>
    intro h
    rw [List.findSome?_cons] at h
    cases hfa : f a with
    | some c =>
      rw [hfa] at h
      exact ⟨a, List.mem_cons_self a l, hfa.trans h⟩
    | none =>
      rw [hfa] at h
      obtain ⟨x, hx, hfx⟩ := ih h
      exact ⟨x, List.mem_cons_of_mem a hx, hfx⟩

theorem mem_insertLe {α : Type} {le : α → α → Bool} {x a : α} :
    ∀ {l : List α}, x ∈ insertLe le a l ↔ x = a ∨ x ∈ l := by
  intro l
  induction l with
  | nil => simp [insertLe]
  | cons b l ih =>
    by_cases hb : le a b = true
    · rw [show insertLe le a (b :: l) = a :: b :: l by simp [insertLe, hb]]
      simp [List.mem_cons]
    · have hb' : le a b = false := Bool.eq_false_iff.mpr hb
      rw [show insertLe le a (b :: l) = b :: insertLe le a l by simp [insertLe, hb']]
      simp only [List.mem_cons, ih]
      tauto

theorem mem_sortLe {α : Type} {le : α → α → Bool} {x : α} :
    ∀ {l : List α}, x ∈ sortLe le l ↔ x ∈ l := by
  intro l
  induction l with
  | nil => simp [sortLe]
  | cons a l ih => simp [sortLe, mem_insertLe, ih]

theorem insertLe_append_right {α : Type} (le : α → α → Bool) (a : α) :
    ∀ (xs ys : List α), (∀ x ∈ xs, le a x = false) →
      insertLe le a (xs ++ ys) = xs ++ insertLe le a ys := by
  intro xs
  induction xs with
  | nil => intro ys _; rfl
  | cons x xs ih =>
    intro ys h
    have hx := h x (List.mem_cons_self x xs)
    calc insertLe le a ((x :: xs) ++ ys)
        = x :: insertLe le a (xs ++ ys) := by simp [insertLe, hx]
      _ = x :: (xs ++ insertLe le a ys) := by
          rw [ih ys fun z hz => h z (List.mem_cons_of_mem x hz)]
      _ = (x :: xs) ++ insertLe le a ys := rfl

theorem insertLe_append_left {α : Type} (le : α → α → Bool) (a : α) :
    ∀ (xs ys : List α), (∀ y ∈ ys, le a y = true) →
      insertLe le a (xs ++ ys) = insertLe le a xs ++ ys := by
  intro xs
  induction xs with
  | nil =>
    intro ys h
    cases ys with
    | nil => rfl
    | cons y ys =>
      have hy := h y (List.mem_cons_self y ys)
      simp [insertLe, hy]
  | cons x xs ih =>
    intro ys h
    by_cases hx : le a x = true
    · simp [insertLe, hx]
    · have hx' : le a x = false := Bool.eq_false_iff.mpr hx
      calc insertLe le a ((x :: xs) ++ ys)
          = x :: insertLe le a (xs ++ ys) := by simp [insertLe, hx']
        _ = x :: (insertLe le a xs ++ ys) := by rw [ih ys h]
        _ = insertLe le a (x :: xs) ++ ys := by simp [insertLe, hx']

theorem sortLe_split {α : Type} (le : α → α → Bool) (p : α → Bool)
    (h1 : ∀ a b, p a = true → p b = false → le a b = true)
    (h2 : ∀ a b, p a = true → p b = false → le b a = false) :
    ∀ (l : List α),
      sortLe le l = sortLe le (l.filter p) ++ sortLe le (l.filter fun x => !p x) := by
  intro l
  induction l with
  | nil => rfl
  | cons a l ih =>
    by_cases ha : p a = true
    · have hfp : (a :: l).filter p = a :: l.filter p := by simp [List.filter, ha]
      have hfn : ((a :: l).filter fun x => !p x) = l.filter fun x => !p x := by
        simp [List.filter, ha]
      rw [hfp, hfn]
      show insertLe le a (sortLe le l) = _
      rw [ih, insertLe_append_left]
      · rfl
      · intro y hy
        have : y ∈ l.filter fun x => !p x := mem_sortLe.mp hy
        have hpy : p y = false := by
          have := (List.mem_filter.mp this).2
          simpa using this
        exact h1 a y ha hpy
    · have ha' : p a = false := Bool.eq_false_iff.mpr ha
      have hfp : (a :: l).filter p = l.filter p := by simp [List.filter, ha']
      have hfn : ((a :: l).filter fun x => !p x) = a :: l.filter fun x => !p x := by
        simp [List.filter, ha']
      rw [hfp, hfn]
      show insertLe le a (sortLe le l) = _
      rw [ih, insertLe_append_right]
      · rfl
      · intro x hx
        have : x ∈ l.filter p := mem_sortLe.mp hx
        have hpx : p x = true := (List.mem_filter.mp this).2
        exact h2 x a hpx ha'

theorem hexVal_lt_16 {c : Char} (h : isHexL c = true) : hexVal c < 16 := by
  simp only [isHexL, Bool.or_eq_true, Bool.and_eq_true, decide_eq_true_eq] at h
  simp only [hexVal]
  rcases h with ⟨h1, h2⟩ | ⟨h1, h2⟩ <;> split <;> omega

theorem digitVal_lt_10 {c : Char} (h : isDigitC c = true) : digitVal c < 10 := by
  simp only [isDigitC, Bool.and_eq_true, decide_eq_true_eq] at h
  simp only [digitVal]
  omega

theorem pciParse_bounds {s : String} {b d f : Nat}
    (h : pciParse s = some (b, d, f)) : b < 256 ∧ d < 256 ∧ f < 10 := by
  unfold pciParse at h
  split at h
  · split at h
    · rename_i hcond
      simp only [Bool.and_eq_true] at hcond
      obtain ⟨⟨⟨⟨h0, h1⟩, h3⟩, h4⟩, h6⟩ := hcond
      have b0 := hexVal_lt_16 h0
      have b1 := hexVal_lt_16 h1
      have b3 := hexVal_lt_16 h3
      have b4 := hexVal_lt_16 h4
      have b6 := digitVal_lt_10 h6
      injection h with h'
      injection h' with hb hdf
      injection hdf with hd hf
      subst hb hd hf
      refine ⟨by omega, by omega, by omega⟩
    · exact absurd h (by simp)
  · exact absurd h (by simp)

theorem v2le_valid_invalid {k1 k2 : String}
    (h1 : validKeyB k1 = true) (h2 : validKeyB k2 = false) :
    v2le k1 k2 = true ∧ v2le k2 k1 = false := by
  simp only [validKeyB, Option.isSome_iff_exists] at h1
  obtain ⟨⟨b, d, f⟩, hp⟩ := h1
  have hb := pciParse_bounds hp
  have hnone : pciParse (firstWord k2) = none := by
    cases hq : pciParse (firstWord k2) with
    | none => rfl
    | some t => simp [validKeyB, hq] at h2
  have hk1 : v2key k1 = (b, d, f) := by simp [v2key, pci_sort_key, hp]
  have hk2 : v2key k2 = (999, 999, 999) := by simp [v2key, pci_sort_key, hnone]
  have hlt : tripleLtB (b, d, f) (999, 999, 999) = true := by
    simp only [tripleLtB, Bool.or_eq_true, Bool.and_eq_true, decide_eq_true_eq]
    left; omega
  have hnlt : tripleLtB (999, 999, 999) (b, d, f) = false := by
    simp only [tripleLtB, Bool.or_eq_false_iff, Bool.and_eq_false_iff,
      decide_eq_false_iff_not]
    exact ⟨by omega, Or.inl (by omega)⟩
  constructor
  · simp [v2le, hk1, hk2, tripleLeB, hnlt]
  · simp [v2le, hk1, hk2, tripleLeB, hlt]

theorem lookupG_addDisk_self : ∀ (g : Groups) (k e),
    lookupG (addDisk g k e) k = lookupG g k ++ [e] := by
  intro g
  induction g with
  | nil => intro k e; simp [addDisk, lookupG]
  | cons p g ih =>
    intro k e
    obtain ⟨k', es⟩ := p
    by_cases hk : k' = k
    · subst hk
      simp [addDisk, lookupG]
    · simp [addDisk, lookupG, hk, ih]

theorem lookupG_addDisk_ne : ∀ (g : Groups) (k1 k2 e), k1 ≠ k2 →
    lookupG (addDisk g k1 e) k2 = lookupG g k2 := by
  intro g
  induction g with
  | nil => intro k1 k2 e h; simp [addDisk, lookupG, h]
  | cons p g ih =>
    intro k1 k2 e h
    obtain ⟨k', es⟩ := p
    by_cases hk : k' = k1
    · subst hk
      simp [addDisk, lookupG, h]
    · simp only [addDisk, hk, if_false]
      by_cases hk2 : k' = k2
      · subst hk2; simp [lookupG]
      · simp [lookupG, hk2, ih _ _ _ h]

theorem lookupG_sata_fold (lspci : String → String) (k : String) :
    ∀ (ds : List V2.SataRaw) (g : Groups),
      lookupG (V2.process_sata_disks lspci g ds) k =
        lookupG g k ++
          (ds.filter fun d => decide (V2.sataController lspci d = k)).map V2.sataEntry := by
  intro ds
  induction ds with
  | nil => intro g; simp [V2.process_sata_disks]
  | cons d ds ih =>
    intro g
    show lookupG (V2.process_sata_disks lspci (V2.processSataDisk lspci g d) ds) k = _
    rw [ih]
    by_cases hc : V2.sataController lspci d = k
    · rw [show V2.processSataDisk lspci g d = addDisk g k (V2.sataEntry d) by
        simp [V2.processSataDisk, hc]]
      rw [lookupG_addDisk_self]
      simp [List.filter, hc]
    · rw [show lookupG (V2.processSataDisk lspci g d) k = lookupG g k from
        lookupG_addDisk_ne _ _ _ _ hc]
      simp [List.filter, hc]

theorem lookupG_nvme_fold (lspci : String → String) (k : String) :
    ∀ (ds : List V2.NvmeRaw) (g : Groups),
      lookupG (V2.process_nvme_disks lspci g ds) k =
        lookupG g k ++
          (ds.filter fun d =>
            !decide (d.idctrl = "") && decide (V2.nvmeController lspci d = k)).map
            V2.nvmeEntry := by
  intro ds
  induction ds with
  | nil => intro g; simp [V2.process_nvme_disks]
  | cons d ds ih =>
    intro g
    show lookupG (V2.process_nvme_disks lspci (V2.processNvmeDisk lspci g d) ds) k = _
    rw [ih]
    by_cases hid : d.idctrl = ""
    · rw [show V2.processNvmeDisk lspci g d = g by simp [V2.processNvmeDisk, hid]]
      simp [List.filter, hid]
    · by_cases hc : V2.nvmeController lspci d = k
      · rw [show V2.processNvmeDisk lspci g d = addDisk g k (V2.nvmeEntry d) by
          simp [V2.processNvmeDisk, hid, hc]]
        rw [lookupG_addDisk_self]
        simp [List.filter, hid, hc]
      · rw [show lookupG (V2.processNvmeDisk lspci g d) k = lookupG g k by
          simp only [V2.processNvmeDisk, hid, if_false]
          exact lookupG_addDisk_ne _ _ _ _ hc]
        simp [List.filter, hid, hc]

theorem resolveLoop_eq_find? (lspci : String → String) :
    ∀ (l : List String),
      resolveLoop lspci l =
        match l.find? (fun a => keywordHit (pyStrip (lspci a))) with
        | some a => a ++ " " ++ pyStrip (lastColon2 (pyStrip (lspci a)))
        | none => "Unknown Controller" := by
  intro l
  induction l with
  | nil => rfl
  | cons a l ih =>
    by_cases ha : keywordHit (pyStrip (lspci a)) = true
    · simp [resolveLoop, List.find?, ha]
    · rw [show resolveLoop lspci (a :: l) = resolveLoop lspci l by
        simp [resolveLoop, ha]]
      rw [ih]
      have : List.find? (fun a => keywordHit (pyStrip (lspci a))) (a :: l) =
          List.find? (fun a => keywordHit (pyStrip (lspci a))) l := by
        simp [List.find?, Bool.eq_false_iff.mpr ha]
      rw [this]

-- ── Claim-specific sample inputs ──

/-- An NVMe device whose `nvme id-ctrl` invocation produced no output. -/
def nvmeFailSample : V2.NvmeRaw :=
  { entry := "nvme0n1",
    devpathReal := "/sys/devices/pci0000:00/0000:03:00.0/nvme/nvme0/nvme0n1",
    idctrl := "", sizeRaw := "", smartLogRaw := "", linkFiles := none }

/-- A SATA device on a path whose only PCI function has no matching
controller description (resolution falls back to the sentinel). -/
def sataUnknownSample : V2.SataRaw :=
  { dev := "sda", devpathReal := "/sys/devices/pci0000:00/0000:01:00.0/ata1/host0",
    modelRaw := "", vendorRaw := "", sizeRaw := "", smartInfoRaw := "",
    smartHealthRaw := "", smartAttrsRaw := "" }

/-- An `lspci -s` oracle with a SATA controller at 02:00.0 behind a PCI
bridge at 00:01.0. -/
def sampleLspci : String → String := fun a =>
  if a = "02:00.0" then "02:00.0 SATA controller: Marvell Technology 88SE9230"
  else "00:01.0 PCI bridge: Intel Corporation"

-- ── Claim theorems ──

/-- C1 counterexample: a raw NVMe diagnostic output that contains no
critical-warning counter is classified as Degraded/Failed — not Unknown —
in both variants (V1 substitutes "FAILED"; V2's "??" placeholder falls into
the failure branch), refuting the claim that the absence of a recognized
health signal always yields Unknown. -/
theorem c1_missing_signal_not_unknown :
    V1.nvmeHealth "" = Health.degraded ∧
    V2.healthClass (V2.grep_val "MN : Samsung SSD 980" "critical_warning") =
      Health.degraded ∧
    Health.degraded ≠ Health.unknown := by decide

/-- C1 (amended): only the markers PASSED, OK, or 0 (after uppercasing)
classify as Healthy; for SATA, an output with no SMART result/assessment
line classifies as Unknown; but for NVMe, an output with no critical-warning
counter classifies as Degraded/Failed (never Healthy, never Unknown) in both
variants. -/
theorem c1_health_signals :
    (∀ s : String,
      V2.healthClass s = Health.healthy ↔
        (pyUpper s = "PASSED" ∨ pyUpper s = "OK" ∨ pyUpper s = "0")) ∧
    (∀ output : String,
      (∀ line ∈ pySplitlines output,
        (containsSub "smart" (pyLower line) &&
          (containsSub "result" (pyLower line) ||
            containsSub "assessment" (pyLower line))) = false) →
      V2.healthClass (V2.parse_smart_health output) = Health.unknown) ∧
    (∀ idctrl : String,
      (∀ line ∈ pySplitlines idctrl,
        startsWithS "critical_warning" (pyLower (pyStrip line)) = false) →
      V2.healthClass (V2.grep_val idctrl "critical_warning") = Health.degraded) ∧
    (∀ smartLog : String,
      findCritWarn smartLog.toList = none → V1.nvmeHealth smartLog = Health.degraded) := by
  refine ⟨fun s => ?_, fun output h => ?_, fun idctrl h => ?_, fun smartLog h => ?_⟩
  · by_cases h1 : pyUpper s = "PASSED" ∨ pyUpper s = "OK" ∨ pyUpper s = "0"
    · simp [V2.healthClass, h1]
    · have hne : V2.healthClass s ≠ Health.healthy := by
        unfold V2.healthClass
        rw [if_neg h1]
        by_cases h2 : s = ""
        · rw [if_pos h2]; exact fun hc => Health.noConfusion hc
        · rw [if_neg h2]; exact fun hc => Health.noConfusion hc
      exact iff_of_false hne h1
  · have hn : ((pySplitlines output).findSome? fun line =>
        if containsSub "smart" (pyLower line) &&
            (containsSub "result" (pyLower line) ||
              containsSub "assessment" (pyLower line)) then
          some (pyStrip (lastColon1 line))
        else none) = none :=
      findSome?_eq_none_of_all fun line hl => by simp [h line hl]
    have he : V2.parse_smart_health output = "" := by
      unfold V2.parse_smart_health
      rw [hn]
      rfl
    rw [he]
    decide
  · have e : pyLower "critical_warning" = "critical_warning" := by decide
    have hn : ((pySplitlines idctrl).findSome? fun line =>
        if startsWithS (pyLower "critical_warning") (pyLower (pyStrip line)) then
          some (pyStrip (lastColon1 line))
        else none) = none :=
      findSome?_eq_none_of_all fun line hl => by rw [e]; simp [h line hl]
    have he : V2.grep_val idctrl "critical_warning" = "??" := by
      unfold V2.grep_val
      rw [hn]
      rfl
    rw [he]
    decide
  · unfold V1.nvmeHealth
    rw [h]
    decide

/-- C1 witness: the amended theorem applied to concrete raw outputs — a SATA
output with no result line is Unknown, NVMe outputs with no counter are
Degraded. -/
theorem c1_health_signals_witness :
    V2.healthClass (V2.parse_smart_health "all good here") = Health.unknown ∧
    V2.healthClass (V2.grep_val "MN : Samsung SSD" "critical_warning") =
      Health.degraded ∧
    V1.nvmeHealth "" = Health.degraded :=
  ⟨c1_health_signals.2.1 "all good here" (by decide),
   c1_health_signals.2.2.1 "MN : Samsung SSD" (by decide),
   c1_health_signals.2.2.2 "" (by decide)⟩

/-- C2 counterexample: an NVMe device whose id-ctrl read failed (empty
output) is dropped from the report entirely — scanning just that device
yields an empty report, refuting "does not remove the device from the final
report". -/
theorem c2_failed_device_dropped :
    V2.scanAll (fun _ => "") [] [nvmeFailSample] = ([] : Groups) := by decide

/-- C2 (amended): a controller-resolution failure does not remove a device
(it is reported under the "Unknown Controller" sentinel group), and one NVMe
device's id-ctrl failure does not abort the processing of other devices; but
an NVMe device whose id-ctrl output is empty is skipped and appears in no
group of the report. -/
theorem c2_partial_failure :
    (∀ (lspci : String → String) (d : V2.SataRaw),
      V2.sataController lspci d = "Unknown Controller" →
      lookupG (V2.scanAll lspci [d] []) "Unknown Controller" = [V2.sataEntry d]) ∧
    (∀ (lspci : String → String) (d1 d2 : V2.NvmeRaw), d1.idctrl = "" →
      V2.scanAll lspci [] [d1, d2] = V2.scanAll lspci [] [d2]) ∧
    (∀ (lspci : String → String) (d1 : V2.NvmeRaw) (k : String), d1.idctrl = "" →
      lookupG (V2.scanAll lspci [] [d1]) k = []) := by
  refine ⟨fun lspci d h => ?_, fun lspci d1 d2 h => ?_, fun lspci d1 k h => ?_⟩
  · show lookupG
        (V2.process_nvme_disks lspci (V2.process_sata_disks lspci [] [d]) [])
        "Unknown Controller" = _
    rw [show V2.process_nvme_disks lspci (V2.process_sata_disks lspci [] [d]) [] =
        V2.process_sata_disks lspci [] [d] from rfl]
    rw [lookupG_sata_fold]
    simp [lookupG, List.filter, h]
  · show V2.process_nvme_disks lspci (V2.process_sata_disks lspci [] []) [d1, d2] = _
    simp [V2.scanAll, V2.process_nvme_disks, V2.processNvmeDisk, h]
  · show lookupG
        (V2.process_nvme_disks lspci (V2.process_sata_disks lspci [] []) [d1]) k = _
    rw [show V2.process_sata_disks lspci [] [] = [] from rfl]
    rw [lookupG_nvme_fold]
    simp [lookupG, List.filter, h]

/-- C2 witness: the amended theorem at concrete devices — an unresolvable
SATA device still appears under the sentinel group, and a failed NVMe device
appears under no key. -/
theorem c2_partial_failure_witness :
    lookupG (V2.scanAll (fun _ => "") [sataUnknownSample] []) "Unknown Controller" =
      [V2.sataEntry sataUnknownSample] ∧
    lookupG (V2.scanAll (fun _ => "") [] [nvmeFailSample]) "01:00.0 X" = [] :=
  ⟨c2_partial_failure.1 (fun _ => "") sataUnknownSample (by decide),
   c2_partial_failure.2.2 (fun _ => "") nvmeFailSample "01:00.0 X" (by decide)⟩

/-- C3 counterexample: V2's SATA temperature extractor has no numeric range
check — a raw candidate value of 200 in attribute column 9 is accepted and
reported as 200°C, refuting "a raw candidate value of 200 is discarded and
no temperature is reported". -/
theorem c3_v2_accepts_200 :
    V2.get_drive_temperature_sata
        "194 Temperature_Celsius 0x0022 062 045 000 Old_age Always - 200" =
      "🌡️ 200°C," ∧
    ("🌡️ 200°C," : String) ≠ "🌡️ N/A," := by decide

/-- C3 (amended): V1's temperature extractor accepts a numeric candidate only
inside the open interval (0, 150) — 200 is discarded, 45 is reported as
45°C — but V2's extractor performs no range check and reports a raw 200. -/
theorem c3_temperature_range :
    (∀ (output v : String), V1.tempVal output = some v →
      ∃ n, parseDigitsS v = some n ∧ 0 < n ∧ n < 150) ∧
    V1.get_drive_temperature "Temperature 200" = "🌡️ N/A," ∧
    V1.get_drive_temperature "Temperature 45" = "🌡️ 45°C," ∧
    V2.get_drive_temperature_sata
        "194 Temperature_Celsius 0x0022 062 045 000 Old_age Always - 200" =
      "🌡️ 200°C," := by
  refine ⟨fun output v h => ?_, by decide, by decide, by decide⟩
  obtain ⟨line, hline, hfl⟩ := exists_of_findSome?_eq_some h
  by_cases hh : (containsSub "Temperature" line || containsSub "temperature" line) = true
  · rw [if_pos hh] at hfl
    unfold V1.tempCand at hfl
    obtain ⟨field, hf, hval⟩ := exists_of_findSome?_eq_some hfl
    cases hp : parseDigitsS field with
    | none => rw [hp] at hval; simp at hval
    | some n =>
      rw [hp] at hval
      simp only [] at hval
      by_cases hr : 0 < n ∧ n < 150
      · rw [if_pos hr] at hval
        injection hval with hv
        subst hv
        exact ⟨n, hp, hr.1, hr.2⟩
      · rw [if_neg hr] at hval
        simp at hval
  · rw [if_neg hh] at hfl
    simp at hfl

/-- C3 witness: the range bound applied to the concrete accepted reading 45. -/
theorem c3_temperature_range_witness :
    ∃ n, parseDigitsS "45" = some n ∧ 0 < n ∧ n < 150 :=
  c3_temperature_range.1 "Temperature 45" "45" (by decide)

/-- C4 counterexample: from a SMART info block whose capable speed is
6.0 Gb/s but whose current link reads 1.5 Gb/s, V1 resolves the tiers to
(SATA6, SATA?) — the negotiated tier is the Unknown tier — and still flags
degradation, refuting "if either tier is Unknown, degraded = false". -/
theorem c4_unknown_negotiated_degraded :
    V1.get_sata_version_and_link
        "SATA Version is:  SATA 3.1, 6.0 Gb/s (current: 1.5 Gb/s)" =
      ("SATA6", "SATA?") ∧
    V1.linkDegraded "SATA?" (some "SATA6") = true := by decide

/-- C4 (amended): degradation is flagged iff the capable tier is resolved
(rank ≠ 0) and the negotiated tier's rank is strictly below it, with the
Unknown tier ranking lowest: SATA6/SATA3 → true, SATA6/SATA6 → false,
capable-Unknown → false, but capable SATA6 with negotiated Unknown → true. -/
theorem c4_degradation_rule :
    (∀ link cap : String,
      V1.linkDegraded link (some cap) =
        (decide (V1.speed_order cap ≠ 0) &&
          decide (V1.speed_order link < V1.speed_order cap))) ∧
    V1.linkDegraded "SATA3" (some "SATA6") = true ∧
    V1.linkDegraded "SATA6" (some "SATA6") = false ∧
    V1.linkDegraded "SATA3" (some "SATA?") = false ∧
    V1.linkDegraded "SATA?" (some "SATA6") = true :=
  ⟨fun _ _ => rfl, by decide, by decide, by decide, by decide⟩

/-- C5 counterexample: V1's output ordering is a plain lexicographic sort of
the whole key string, so the unparsable sentinel "Unknown Controller" sorts
BEFORE the valid address key "aa:00.0 ..." — refuting "every key that fails
to parse sorts after every key with a valid parsable bus address". -/
theorem c5_lexicographic_violation :
    pciParse (firstWord "aa:00.0 SATA controller: X") = some (170, 0, 0) ∧
    v1sortKeys ["aa:00.0 SATA controller: X", "Unknown Controller"] =
      ["Unknown Controller", "aa:00.0 SATA controller: X"] := by decide

/-- C5 (amended): in V2 every unparsable key sorts after every parsable key
(the sorted sequence is the sorted parsable keys followed by the sorted
unparsable ones), but ties among unparsable keys keep their prior insertion
order under the stable sort rather than lexicographic order; in V1 the keys
are sorted by plain lexicographic string comparison, under which the unknown
sentinel can precede valid address keys. -/
theorem c5_sort_order :
    (∀ ks : List String,
      v2sortKeys ks =
        v2sortKeys (ks.filter validKeyB) ++
          v2sortKeys (ks.filter fun k => !validKeyB k)) ∧
    v2sortKeys ["zz", "aa"] = ["zz", "aa"] ∧
    v1sortKeys ["aa:00.0 SATA controller: X", "Unknown Controller"] =
      ["Unknown Controller", "aa:00.0 SATA controller: X"] := by
  refine ⟨fun ks => ?_, by decide, by decide⟩
  exact sortLe_split v2le validKeyB
    (fun a b ha hb => (v2le_valid_invalid ha hb).1)
    (fun a b ha hb => (v2le_valid_invalid ha hb).2)
    ks

/-- C6: for controller keys whose leading token parses as a bus address, the
V2 sort key comparison coincides with strict lexicographic order on the
numeric (bus, device, function) triples; concretely "01:00.0" sorts before
"02:00.0" before "0a:00.1" in both variants' orderings. -/
theorem c6_pci_key_monotone :
    (∀ (k1 k2 : String) (t1 t2 : Nat × Nat × Nat),
      pciParse (firstWord k1) = some t1 → pciParse (firstWord k2) = some t2 →
      tripleLtB (v2key k1) (v2key k2) = tripleLtB t1 t2) ∧
    v2sortKeys ["02:00.0 b", "0a:00.1 c", "01:00.0 a"] =
      ["01:00.0 a", "02:00.0 b", "0a:00.1 c"] ∧
    v1sortKeys ["02:00.0 b", "0a:00.1 c", "01:00.0 a"] =
      ["01:00.0 a", "02:00.0 b", "0a:00.1 c"] ∧
    tripleLtB (v2key "01:00.0 a") (v2key "02:00.0 b") = true ∧
    tripleLtB (v2key "02:00.0 b") (v2key "0a:00.1 c") = true := by
  refine ⟨fun k1 k2 t1 t2 h1 h2 => ?_, by decide, by decide, by decide, by decide⟩
  simp [v2key, pci_sort_key, h1, h2]

/-- C6 witness: the monotonicity equation applied at "01:00.0" vs "02:00.0". -/
theorem c6_pci_key_monotone_witness :
    tripleLtB (v2key "01:00.0 a") (v2key "02:00.0 b") =
      tripleLtB (1, 0, 0) (2, 0, 0) :=
  c6_pci_key_monotone.1 "01:00.0 a" "02:00.0 b" (1, 0, 0) (2, 0, 0)
    (by decide) (by decide)

/-- C7: the controller resolver scans the bus-address tokens of the canonical
path in reverse order (nearest the device first), returns the first whose
PCI description line matches a controller-class keyword together with that
description, and falls back to the unknown sentinel when none match;
concretely the SATA controller at 02:00.0 is preferred over the upstream
bridge at 00:01.0, and a path with no matching description resolves to
"Unknown Controller". -/
theorem c7_controller_resolution :
    (∀ (lspci : String → String) (path : String),
      get_storage_controller lspci path =
        match ((scanAddrs path.toList).map String.mk).reverse.find?
            (fun a => keywordHit (pyStrip (lspci a))) with
        | some a => a ++ " " ++ pyStrip (lastColon2 (pyStrip (lspci a)))
        | none => "Unknown Controller") ∧
    get_storage_controller sampleLspci
        "/sys/devices/pci0000:00/0000:00:01.0/0000:02:00.0/nvme/nvme0/nvme0n1" =
      "02:00.0 Marvell Technology 88SE9230" ∧
    get_storage_controller (fun _ => "")
        "/sys/devices/pci0000:00/0000:01:00.0/ata1/host0" =
      "Unknown Controller" := by
  refine ⟨fun lspci path => resolveLoop_eq_find? lspci _, by decide, by decide⟩

/-- C8 counterexample: the extractor returns the empty string — not the
"unknown" sentinel — when the key line is present but carries an empty
value, refuting "unknown-valued fields hold the explicit sentinel, never
empty". -/
theorem c8_empty_value_not_sentinel :
    V2.parse_smartctl_output "Serial Number:" "Serial Number" = "" ∧
    ("" : String) ≠ "unknown" := by decide

/-- C8 (amended): the extractor is total (never raises) and returns the
"unknown" sentinel whenever no line of the raw output contains the key, but
a present key whose value after the colon is empty yields the empty string
instead of the sentinel. -/
theorem c8_extractor_sentinel :
    (∀ output key : String,
      (∀ line ∈ pySplitlines output,
        containsSub (pyLower key) (pyLower line) = false) →
      V2.parse_smartctl_output output key = "unknown") ∧
    V2.parse_smartctl_output "Serial Number:" "Serial Number" = "" := by
  refine ⟨fun output key h => ?_, by decide⟩
  have hn : ((pySplitlines output).findSome? fun line =>
      if containsSub (pyLower key) (pyLower line) then
        match splitColon1 line.toList with
        | (_, some tail) => some (pyStrip (String.mk tail))
        | (_, none) => none
      else none) = none :=
    findSome?_eq_none_of_all fun line hl => by simp [h line hl]
  unfold V2.parse_smartctl_output
  rw [hn]
  rfl

/-- C8 witness: the sentinel branch applied to an output without the key. -/
theorem c8_extractor_sentinel_witness :
    V2.parse_smartctl_output "Model Family: Seagate" "Serial Number" = "unknown" :=
  c8_extractor_sentinel.1 "Model Family: Seagate" "Serial Number" (by decide)

/-- C9: the byte-count formatter (modelled from the spec; absent from src/)
divides by 1024 until the value drops below 1024 or the B/K/M/G/T table is
exhausted and prints one decimal place: 1073741824 → "1.0G", 512 → "512B",
1536 → "1.5K". -/
theorem c9_format_bytes_examples :
    format_bytes 1073741824 = "1.0G" ∧ format_bytes 512 = "512B" ∧
    format_bytes 1536 = "1.5K" ∧ format_bytes 1048576 = "1.0M" ∧
    format_bytes 1099511627776 = "1.0T" ∧
    (∀ n : Nat, byteUnitIdx n = 4 ∨ n / 1024 ^ byteUnitIdx n < 1024) := by
  refine ⟨by decide, by decide, by decide, by decide, by decide, fun n => ?_⟩
  by_cases h1 : n < 1024
  · right
    rw [show byteUnitIdx n = 0 by simp [byteUnitIdx, h1], pow_zero, Nat.div_one]
    exact h1
  · by_cases h2 : n < 1024 * 1024
    · right
      rw [show byteUnitIdx n = 1 by simp [byteUnitIdx, h1, h2], pow_one]
      exact (Nat.div_lt_iff_lt_mul (by norm_num)).mpr (by omega)
    · by_cases h3 : n < 1024 * 1024 * 1024
      · right
        rw [show byteUnitIdx n = 2 by simp [byteUnitIdx, h1, h2, h3],
          show (1024 : Nat) ^ 2 = 1024 * 1024 by norm_num]
        exact (Nat.div_lt_iff_lt_mul (by norm_num)).mpr (by omega)
      · by_cases h4 : n < 1024 * 1024 * 1024 * 1024
        · right
          rw [show byteUnitIdx n = 3 by simp [byteUnitIdx, h1, h2, h3, h4],
            show (1024 : Nat) ^ 3 = 1024 * 1024 * 1024 by norm_num]
          exact (Nat.div_lt_iff_lt_mul (by norm_num)).mpr (by omega)
        · left
          simp [byteUnitIdx, h1, h2, h3, h4]

/-- C10: the final report's group lists are exactly the SATA entries for
that controller (in discovery order) followed by the NVMe entries for it
(skipped NVMe devices excluded): every non-skipped device lands in exactly
the group of its resolved controller, exactly once, with all SATA entries
preceding all NVMe entries. -/
theorem c10_group_composition :
    ∀ (lspci : String → String) (sds : List V2.SataRaw) (nds : List V2.NvmeRaw)
      (k : String),
      lookupG (V2.scanAll lspci sds nds) k =
        ((sds.filter fun d => decide (V2.sataController lspci d = k)).map
            V2.sataEntry) ++
          ((nds.filter fun d =>
              !decide (d.idctrl = "") && decide (V2.nvmeController lspci d = k)).map
            V2.nvmeEntry) := by
  intro lspci sds nds k
  show lookupG (V2.process_nvme_disks lspci (V2.process_sata_disks lspci [] sds) nds) k = _
  rw [lookupG_nvme_fold, lookupG_sata_fold]
  simp [lookupG]

end DiskTree
